import Mathlib

/-!
Verification of the recitation-check service (src/server.py) against its
design specification.  The Python source is shallowly embedded: strings are
`List Char`, floats are modelled as exact rationals `ℚ`, the side effects of
the `/submit` handler are recorded as an explicit event trace, and the Google
Drive store is a small explicit state.  Every definition follows the Python
source; external library behaviour (difflib.SequenceMatcher, Python list
indexing, Python round) is embedded from the documented reference algorithms.
-/

set_option autoImplicit false

namespace MemoryCheck

/-! ## Text normalisation (server.py `_normalize`)

The Python code is
  s = s.lower()
  s = re.sub(r"[\s\.,!?:;\-—“”\"'()\[\]·…]", "", s)
The character class is listed below by code point: Unicode whitespace as
matched by Python regex \s (tab 9, LF 10, VT 11, FF 12, CR 13, the
separators 28-31, space 32, NEL 133, NBSP 160, Ogham 0x1680, the 0x2000
family, 0x2028, 0x2029, 0x202F, 0x205F, 0x3000), then full stop 0x2E,
comma 0x2C, exclamation 0x21, question 0x3F, colon 0x3A, semicolon 0x3B,
hyphen 0x2D, em-dash 0x2014, left curly double quote 0x201C, right curly
double quote 0x201D, straight double quote 0x22, straight apostrophe 0x27,
parentheses 0x28 0x29, square brackets 0x5B 0x5D, middle dot 0xB7 and
horizontal ellipsis 0x2026.  Note: the curly single quotes 0x2018 and
0x2019 are NOT in the class. -/

def pySpaceCodes : List Nat :=
  [9, 10, 11, 12, 13, 28, 29, 30, 31, 32, 133, 160, 0x1680,
   0x2000, 0x2001, 0x2002, 0x2003, 0x2004, 0x2005, 0x2006, 0x2007,
   0x2008, 0x2009, 0x200A, 0x2028, 0x2029, 0x202F, 0x205F, 0x3000]

def strippedCodes : List Nat :=
  pySpaceCodes ++
  [0x2E, 0x2C, 0x21, 0x3F, 0x3A, 0x3B, 0x2D, 0x2014, 0x201C, 0x201D,
   0x22, 0x27, 0x28, 0x29, 0x5B, 0x5D, 0xB7, 0x2026]

/-- True when the regex character class of `_normalize` matches `c`. -/
def isStripped (c : Char) : Bool := strippedCodes.contains c.toNat

/-- server.py `_normalize`: lower-case, then delete every character of the
class above.  `Char.toLower` agrees with Python str.lower on the ASCII and
Hangul characters that occur in this development. -/
def _normalize (s : List Char) : List Char :=
  (s.map Char.toLower).filter (fun c => !(isStripped c))

/-! ## difflib.SequenceMatcher (used by server.py `_similarity`)

`SequenceMatcher(None, a, b).ratio()` with `isjunk = None`.  Embedded from
the CPython reference implementation:
  * b2j lists the positions of each element of b, except that when
    autojunk applies (len b ≥ 200) the popular elements (count greater
    than len b / 100 + 1) are dropped from b2j;
  * with isjunk = None the junk set is empty, modelled by `bjunk`;
  * find_longest_match runs the row dynamic programme over b2j, keeping
    the first strictly-longest block (i ascending, then j ascending),
    then widens the block over equal non-junk elements and finally over
    equal junk elements, on both ends;
  * get_matching_blocks recurses on the pieces left and right of the
    longest block; ratio = 2 * (total matched) / (len a + len b), and 1
    when both inputs are empty.
The recursion of find_longest_match is run here on the slices themselves
rather than on (alo, ahi, blo, bhi) index windows, which is equivalent
because the Python loops skip exactly the positions outside the window. -/

/-- Autojunk rule of SequenceMatcher: an element of `b` is popular when
`b` has at least 200 elements and the element occurs more than
`b.length / 100 + 1` times. -/
def popularB (b : List Char) : Char → Bool := fun c =>
  decide (200 ≤ b.length) && decide (b.length / 100 + 1 < b.count c)

/-- With `isjunk = None` the junk set of SequenceMatcher is empty. -/
def bjunk : Char → Bool := fun _ => false

/-- One row of the find_longest_match dynamic programme.  Walks `b` with
position `j`; `diag` is the previous row's entry at `j - 1` (0 when
absent); `prevs` is the previous row's suffix from position `j` on;
`best` is (besti, bestj, bestsize), updated only on strict improvement,
exactly as the Python loop does. -/
def flmRow (ai : Char) (pop : Char → Bool) (i : Nat) :
    List Char → List Nat → Nat → Nat → Nat × Nat × Nat → List Nat × (Nat × Nat × Nat)
  | [], _, _, _, best => ([], best)
  | c :: bs, prevs, diag, j, best =>
    let k := if c == ai && !(pop c) then diag + 1 else 0
    let best' := if best.2.2 < k then (i + 1 - k, j + 1 - k, k) else best
    let step := flmRow ai pop i bs prevs.tail (prevs.headD 0) (j + 1) best'
    (k :: step.1, step.2)

/-- All rows of the find_longest_match dynamic programme, i ascending. -/
def flmRows (pop : Char → Bool) (b : List Char) :
    List Char → Nat → List Nat → Nat × Nat × Nat → Nat × Nat × Nat
  | [], _, _, best => best
  | ai :: rest, i, prev, best =>
    let step := flmRow ai pop i b prev 0 0 best
    flmRows pop b rest (i + 1) step.1 step.2

/-- Widening loop of find_longest_match towards the front:
while besti > 0 and bestj > 0 and keep b[bestj-1] and a[besti-1] == b[bestj-1].
`fuel` bounds the recursion; `a.length` suffices since besti decreases. -/
def extendHead (keep : Char → Bool) (a b : List Char) :
    Nat → Nat × Nat × Nat → Nat × Nat × Nat
  | 0, best => best
  | fuel + 1, (bi, bj, bs) =>
    if bi != 0 && bj != 0 && keep (b.getD (bj - 1) (Char.ofNat 0)) &&
        (a.getD (bi - 1) (Char.ofNat 0) == b.getD (bj - 1) (Char.ofNat 0)) then
      extendHead keep a b fuel (bi - 1, bj - 1, bs + 1)
    else
      (bi, bj, bs)

/-- Widening loop of find_longest_match towards the back:
while besti+bestsize < len a and bestj+bestsize < len b and
keep b[bestj+bestsize] and a[besti+bestsize] == b[bestj+bestsize]. -/
def extendTail (keep : Char → Bool) (a b : List Char) :
    Nat → Nat × Nat × Nat → Nat × Nat × Nat
  | 0, best => best
  | fuel + 1, (bi, bj, bs) =>
    if decide (bi + bs < a.length) && decide (bj + bs < b.length) &&
        keep (b.getD (bj + bs) (Char.ofNat 0)) &&
        (a.getD (bi + bs) (Char.ofNat 0) == b.getD (bj + bs) (Char.ofNat 0)) then
      extendTail keep a b fuel (bi, bj, bs + 1)
    else
      (bi, bj, bs)

/-- find_longest_match on whole slices: the dynamic programme, then the
four widening loops (non-junk front, non-junk back, junk front, junk
back) in the order of the Python source. -/
def findLongestMatch (pop junk : Char → Bool) (a b : List Char) : Nat × Nat × Nat :=
  let p0 := flmRows pop b a 0 [] (0, 0, 0)
  let p1 := extendHead (fun c => !junk c) a b a.length p0
  let p2 := extendTail (fun c => !junk c) a b (a.length + b.length) p1
  let p3 := extendHead junk a b a.length p2
  extendTail junk a b (a.length + b.length) p3

/-- Total size of the matching blocks of get_matching_blocks: the longest
block plus, recursively, the matches in the pieces strictly before and
strictly after it.  `fuel` bounds the recursion depth; every recursive
call strictly shrinks the combined length, so `a.length + b.length + 1`
suffices at the top. -/
def totalMatches (pop junk : Char → Bool) : Nat → List Char → List Char → Nat
  | 0, _, _ => 0
  | fuel + 1, a, b =>
    let m := findLongestMatch pop junk a b
    if m.2.2 == 0 then 0
    else
      totalMatches pop junk fuel (a.take m.1) (b.take m.2.1) + m.2.2 +
        totalMatches pop junk fuel (a.drop (m.1 + m.2.2)) (b.drop (m.2.1 + m.2.2))

/-- The two integers ratio() is built from: the total match size and the
combined length of the two inputs.  Kept as a `Nat` pair so that concrete
instances evaluate inside the kernel. -/
def smCounts (a b : List Char) : Nat × Nat :=
  (totalMatches (popularB b) bjunk (a.length + b.length + 1) a b,
   a.length + b.length)

/-- SequenceMatcher(None, a, b).ratio():
2 * matches / (len a + len b), and 1.0 when both are empty. -/
def smRatio (a b : List Char) : ℚ :=
  if (smCounts a b).2 == 0 then 1
  else (2 * ((smCounts a b).1 : ℚ)) / (((smCounts a b).2 : ℚ))

/-- server.py `_similarity`: ratio of the two normalised strings. -/
def _similarity (a b : List Char) : ℚ :=
  smRatio (_normalize a) (_normalize b)

/-! ## Python round (used as `round(x, 3)` on the reported score)

Python round uses round-half-to-even.  Scores are modelled as exact
rationals; the float error of the source (at most about 1e-16) is far
below the 1e-3 granularity at which every comparison here happens. -/

/-- Round a rational to the nearest integer, ties to even. -/
def roundHalfEven (q : ℚ) : ℤ :=
  if q - (⌊q⌋ : ℚ) < 1 / 2 then ⌊q⌋
  else if 1 / 2 < q - (⌊q⌋ : ℚ) then ⌊q⌋ + 1
  else if ⌊q⌋ % 2 == 0 then ⌊q⌋ else ⌊q⌋ + 1

/-- Python `round(q, 3)`. -/
def pyRound3 (q : ℚ) : ℚ := (roundHalfEven (q * 1000) : ℚ) / 1000

/-! ## Verse catalog and the grading step of `submit` (server.py lines 193-205)

A catalog entry is accessed in the source as v["kr"], v["en"] and
v.get("verse_id", ""), so a Verse carries those three fields.  THRESHOLD
is read from the environment (default 0.85) and is a parameter `th` here. -/

structure Verse where
  verse_id : String
  kr : List Char
  en : List Char
deriving DecidableEq, Repr

/-- One element of the `scores` list built by `submit`. -/
structure ScoreEntry where
  verse : String
  score : ℚ
deriving DecidableEq, Repr

/-- The scores list and `passed` flag computed by step 3 of `submit`. -/
structure GradeResult where
  scores : List ScoreEntry
  passed : Bool
deriving DecidableEq, Repr

/-- server.py line 197: `v["kr"] if lang == "kr" else v["en"]`.  Every
language code other than "kr" selects the English text; there is no
validation of the language code. -/
def targetText (lang : String) (v : Verse) : List Char :=
  if lang == "kr" then v.kr else v.en

/-- Python list indexing `l[i]`: non-negative indices are positional,
negative indices count from the back, anything else raises IndexError
(modelled as `none`). -/
def pyGet {α : Type} (l : List α) (i : Int) : Option α :=
  if 0 ≤ i then l[i.toNat]?
  else if i.natAbs ≤ l.length then l[l.length - i.natAbs]? else none

/-- The only exception the grading step itself can raise: the IndexError
of `VERSES[int(verse_idx)]` on an out-of-range index. -/
inductive GradeError
  | indexError
deriving DecidableEq, Repr

/-- Step 3 of `submit` (server.py lines 193-205): with a verse index,
grade that single verse; without one, grade every verse.  The per-verse
score appended to `scores` is the similarity rounded to three decimals,
and `passed` compares that rounded score against the threshold. -/
def grade (verses : List Verse) (th : ℚ) (transcript : List Char)
    (lang : String) (vidx : Option Int) : Except GradeError GradeResult :=
  match vidx with
  | some i =>
    match pyGet verses i with
    | none => .error .indexError
    | some v =>
      let s := pyRound3 (_similarity transcript (targetText lang v))
      .ok ⟨[⟨v.verse_id, s⟩], decide (th ≤ s)⟩
  | none =>
    let scores := verses.map fun v =>
      (⟨v.verse_id, pyRound3 (_similarity transcript (targetText lang v))⟩ : ScoreEntry)
    .ok ⟨scores, scores.all fun e => decide (th ≤ e.score)⟩

/-! ## The `/submit` handler as an event trace (server.py lines 166-249)

The handler's side effects happen in a fixed order: write the audio file
locally, call the transcription service, attempt the Drive upload, append
to submissions.csv, attempt the ledger mirror upload.  The external calls
(transcription, Drive upload) are inputs to the model, given as `Except`
values.  An uncaught exception (the IndexError of step 3) stops the trace
at that point, so later effects do not occur. -/

inductive Ev
  | saveFile
  | sttCall
  | driveUpload
  | ledgerAppend
  | ledgerMirror
deriving DecidableEq, Repr

/-- One row appended to submissions.csv (server.py lines 221-232). -/
structure LedgerEntry where
  week : String
  name : String
  lang : String
  verse_idx : Option Int
  transcript : List Char
  scores : List ScoreEntry
  passed : Bool
  drive_link : String
deriving DecidableEq, Repr

/-- The JSON body returned on success (server.py lines 239-249). -/
structure Response where
  name : String
  lang : String
  scores : List ScoreEntry
  passed : Bool
  transcript : List Char
  file : String
  verse_idx : Option Int
  week_id : String
deriving DecidableEq, Repr

/-- How a `/submit` request ends: the 500 error answer on transcription
failure, an uncaught IndexError from step 3, or the success body. -/
inductive SubmitResult
  | sttFailed
  | indexError
  | ok (resp : Response)
deriving DecidableEq, Repr

/-- The observable outcome of one `/submit` request. -/
structure SubmitTrace where
  events : List Ev
  ledger : List LedgerEntry
  result : SubmitResult
deriving DecidableEq, Repr

/-- The link recorded by `submit`: the try/except of server.py lines
210-214 turns an upload failure into the empty string. -/
def linkOf (uploadResult : Except Unit String) : String :=
  match uploadResult with
  | .ok l => l
  | .error _ => ""

/-- server.py `submit`: save the audio locally, transcribe, grade, then
try the Drive upload (a failure only clears the link), append the ledger
row, and try the ledger mirror (failure swallowed).  `sttResult` and
`uploadResult` stand for the two external calls. -/
def submit (verses : List Verse) (th : ℚ)
    (sttResult : Except Unit (List Char)) (uploadResult : Except Unit String)
    (name lang : String) (vidx : Option Int) (week : String) : SubmitTrace :=
  match sttResult with
  | .error _ => ⟨[.saveFile, .sttCall], [], .sttFailed⟩
  | .ok transcript =>
    match grade verses th transcript lang vidx with
    | .error _ => ⟨[.saveFile, .sttCall], [], .indexError⟩
    | .ok g =>
      ⟨[.saveFile, .sttCall, .driveUpload, .ledgerAppend, .ledgerMirror],
       [⟨week, name, lang, vidx, transcript, g.scores, g.passed, linkOf uploadResult⟩],
       .ok ⟨name, lang, g.scores, g.passed, transcript, linkOf uploadResult, vidx, week⟩⟩

/-! ## Google Drive folder resolution (server.py `_ensure_child_folder`)

The store is a list of folders with identifiers, names, parents and a
trashed flag; `find_folder` is the files().list query with
pageSize = 1 (first match wins), `create_folder` is files().create,
and `createCalls` counts the creation calls issued. -/

structure DriveFolder where
  id : Nat
  name : String
  parent : Nat
  trashed : Bool
deriving DecidableEq, Repr

structure DriveState where
  folders : List DriveFolder
  nextId : Nat
  createCalls : Nat
deriving DecidableEq, Repr

/-- The query of server.py lines 104-109: first non-trashed folder with
the given name under the given parent, if any. -/
def find_folder (st : DriveState) (parent : Nat) (name : String) : Option Nat :=
  ((st.folders.filter fun f =>
      f.name == name && f.parent == parent && !f.trashed).head?).map DriveFolder.id

/-- files().create of server.py lines 112-118: a fresh folder under the
parent; returns its identifier and counts one creation call. -/
def create_folder (st : DriveState) (parent : Nat) (name : String) : Nat × DriveState :=
  (st.nextId,
   ⟨st.folders ++ [⟨st.nextId, name, parent, false⟩], st.nextId + 1, st.createCalls + 1⟩)

/-- server.py `_ensure_child_folder`: look the folder up, create it only
when absent. -/
def _ensure_child_folder (st : DriveState) (parent : Nat) (name : String) :
    Nat × DriveState :=
  match find_folder st parent name with
  | some fid => (fid, st)
  | none => create_folder st parent name

/-- Number of live folders with the given (parent, name) pair. -/
def pairCount (st : DriveState) (parent : Nat) (name : String) : Nat :=
  (st.folders.filter fun f => f.name == name && f.parent == parent && !f.trashed).length

/-! ## The verse-catalog loader (server.py lines 33-38)

After json.load, line 36 runs `WEEK_ID = raw.get("week_id", ...)`.  On a
payload that is not a dict this raises AttributeError (lists, strings and
numbers have no `.get`), so the process dies at startup before line 38 is
reached.  On a dict, lines 36-37 read the week identifier and title,
which do not influence the catalog and are modelled only through the
success of the `.get` call, and line 38 selects the catalog:
`VERSES = raw["verses"] if isinstance(raw, dict) and "verses" in raw else raw`. -/

inductive Json where
  | null
  | str (s : String)
  | num (n : Int)
  | arr (l : List Json)
  | obj (fields : List (String × Json))

/-- Python `"verses" in raw` on a dict. -/
def hasKey (fields : List (String × Json)) (k : String) : Bool :=
  fields.any fun p => p.1 == k

/-- Python `raw[k]` on a dict whose key is present (`Json.null` otherwise;
the source only evaluates it under the `in` guard). -/
def getKey (fields : List (String × Json)) (k : String) : Json :=
  match fields.find? fun p => p.1 == k with
  | some p => p.2
  | none => .null

/-- The startup failure of the loader: the AttributeError raised by the
line-36 `raw.get("week_id", ...)` call when the payload is not a dict. -/
inductive LoadError
  | attributeError
deriving DecidableEq, Repr

/-- server.py lines 36-38: a payload that is not a dict crashes startup
with an AttributeError at line 36; a dict with the key "verses" yields
the value stored under it; any other dict is used as the catalog itself,
unchanged and unvalidated. -/
def loadVerses (raw : Json) : Except LoadError Json :=
  match raw with
  | .obj fields =>
    .ok (if hasKey fields "verses" then getKey fields "verses" else .obj fields)
  | _ => .error .attributeError

/-- True exactly when the payload is a JSON array, i.e. a sequence. -/
def isArr : Json → Bool
  | .arr _ => true
  | _ => false

/-! ## Concrete values used to evaluate the theorems -/

/-- The verse of the specification's end-to-end example. -/
def vKorean : Verse := ⟨"V1", "사랑은 오래 참고".data, "love is patient".data⟩

/-- A second catalog verse, used to expose index wrap-around. -/
def vSecond : Verse := ⟨"V2", "용감".data, "brave".data⟩

/-- A transcript whose similarity against `c2Target` is exactly 96/113,
which is below 0.85 but rounds to 0.850 at three decimals. -/
def c2Transcript : List Char := List.replicate 48 'a' ++ List.replicate 13 'b'

/-- Target paired with `c2Transcript`: 48 matching characters out of a
combined normalised length of 113. -/
def c2Target : List Char := List.replicate 48 'a' ++ List.replicate 4 'c'

/-- U+2019, the right curly single quote, absent from the regex class. -/
def curlyApostrophe : Char := Char.ofNat 0x2019

/-- A catalog payload that is a single verse object rather than a list. -/
def singleVerseObj : Json :=
  .obj [("verse_id", .str "V1"), ("kr", .str "가나"), ("en", .str "ab")]

/-! ## Helper lemmas -/

/-- Python indexing misses exactly outside [-len, len). -/
theorem pyGet_eq_none {α : Type} (l : List α) (i : Int)
    (h : i < -(l.length : Int) ∨ (l.length : Int) ≤ i) : pyGet l i = none := by
  unfold pyGet
  rcases h with h | h
  · have h0 : ¬ 0 ≤ i := by omega
    have h1 : ¬ i.natAbs ≤ l.length := by omega
    simp [h0, h1]
  · have h0 : 0 ≤ i := by omega
    have h1 : l.length ≤ i.toNat := by omega
    simp [h0, List.getElem?_eq_none h1]

/-- Characters of the stripped class are not upper-case ASCII letters, so
lower-casing leaves them unchanged. -/
theorem toLower_eq_self_of_stripped {c : Char} (h : isStripped c = true) :
    Char.toLower c = c := by
  have hm : c.toNat ∈ strippedCodes := by
    unfold isStripped at h
    simpa using h
  have hall : ∀ k ∈ strippedCodes, k < 65 ∨ 90 < k := by decide
  have hk := hall _ hm
  simp only [Char.toLower]
  rw [if_neg (by omega)]

/-- Inserting one character of the stripped class anywhere leaves the
normalised form unchanged. -/
theorem normalize_insert_stripped (u v : List Char) (c : Char)
    (h : isStripped c = true) :
    _normalize (u ++ c :: v) = _normalize (u ++ v) := by
  have h2 : isStripped (Char.toLower c) = true := by
    rw [toLower_eq_self_of_stripped h]; exact h
  simp [_normalize, List.filter_append, h2]

/-- Evaluate a ratio from its kernel-computable `Nat` counts. -/
theorem smRatio_of_counts (a b : List Char) (m t : Nat)
    (h : smCounts a b = (m, t)) (ht : (t == 0) = false) :
    smRatio a b = (2 * (m : ℚ)) / (t : ℚ) := by
  unfold smRatio
  rw [h]
  simp [ht]

/-- Evaluate a similarity score from the counts of the normalised pair. -/
theorem similarity_of_counts (a b : List Char) (m t : Nat)
    (h : smCounts (_normalize a) (_normalize b) = (m, t)) (ht : (t == 0) = false) :
    _similarity a b = (2 * (m : ℚ)) / (t : ℚ) := by
  unfold _similarity
  exact smRatio_of_counts _ _ m t h ht

/-- Rounding lands on the floor itself when the remainder is below 1/2. -/
theorem roundHalfEven_eq_down (q : ℚ) (z : ℤ)
    (h0 : (z : ℚ) ≤ q) (h2 : q - z < 1 / 2) :
    roundHalfEven q = z := by
  have hf : ⌊q⌋ = z := Int.floor_eq_iff.mpr ⟨h0, by linarith⟩
  unfold roundHalfEven
  rw [hf, if_pos h2]

/-- Rounding lands one above the floor when the remainder exceeds 1/2. -/
theorem roundHalfEven_eq_up (q : ℚ) (z : ℤ)
    (h0 : (z : ℚ) ≤ q) (h1 : 1 / 2 < q - z) (h2 : q < (z : ℚ) + 1) :
    roundHalfEven q = z + 1 := by
  have hf : ⌊q⌋ = z := Int.floor_eq_iff.mpr ⟨h0, by linarith⟩
  unfold roundHalfEven
  rw [hf, if_neg (by linarith), if_pos h1]

/-- Python round keeps the floor when the thousandths remainder is low. -/
theorem pyRound3_down (q : ℚ) (z : ℤ)
    (h0 : (z : ℚ) ≤ q * 1000) (h2 : q * 1000 - z < 1 / 2) :
    pyRound3 q = (z : ℚ) / 1000 := by
  unfold pyRound3
  rw [roundHalfEven_eq_down (q * 1000) z h0 h2]

/-- Python round moves up when the thousandths remainder exceeds 1/2. -/
theorem pyRound3_up (q : ℚ) (z : ℤ)
    (h0 : (z : ℚ) ≤ q * 1000) (h1 : 1 / 2 < q * 1000 - z) (h2 : q * 1000 < (z : ℚ) + 1) :
    pyRound3 q = ((z : ℚ) + 1) / 1000 := by
  unfold pyRound3
  rw [roundHalfEven_eq_up (q * 1000) z h0 h1 h2]
  push_cast
  ring

/-- A perfect score is unchanged by the three-decimal rounding. -/
theorem pyRound3_one : pyRound3 1 = 1 := by
  rw [pyRound3_down 1 1000 (by norm_num) (by norm_num)]
  norm_num

/-- The trace of a submission whose transcription and grading succeed. -/
theorem submit_ok (verses : List Verse) (th : ℚ) (t : List Char)
    (upl : Except Unit String) (nm lang : String) (vidx : Option Int)
    (wk : String) (g : GradeResult)
    (hg : grade verses th t lang vidx = .ok g) :
    submit verses th (.ok t) upl nm lang vidx wk
      = ⟨[.saveFile, .sttCall, .driveUpload, .ledgerAppend, .ledgerMirror],
         [⟨wk, nm, lang, vidx, t, g.scores, g.passed, linkOf upl⟩],
         .ok ⟨nm, lang, g.scores, g.passed, t, linkOf upl, vidx, wk⟩⟩ := by
  simp [submit, hg]

/-- The single-verse branch of the grading step, for a valid index. -/
theorem grade_single (verses : List Verse) (th : ℚ) (t : List Char)
    (lang : String) (i : Int) (v : Verse) (hv : pyGet verses i = some v) :
    grade verses th t lang (some i)
      = .ok ⟨[⟨v.verse_id, pyRound3 (_similarity t (targetText lang v))⟩],
             decide (th ≤ pyRound3 (_similarity t (targetText lang v)))⟩ := by
  simp only [grade, hv]

/-! ## Concrete evaluations -/

set_option maxRecDepth 40000

/-- The specification's end-to-end example: the Korean transcript without
the inner space still matches the catalog text exactly after
normalisation. -/
theorem sim_kr : _similarity "사랑은 오래참고".data (targetText "kr" vKorean) = 1 := by
  rw [similarity_of_counts _ _ 7 14 (by decide) (by decide)]
  norm_num

/-- A transcript differing from the English text only in spacing scores 1
even when the language code is the unknown "fr", because grading falls
through to the English text. -/
theorem sim_fr : _similarity "loveispatient".data (targetText "fr" vKorean) = 1 := by
  rw [similarity_of_counts _ _ 13 26 (by decide) (by decide)]
  norm_num

/-- The English text of the second verse matches itself. -/
theorem sim_brave : _similarity "brave".data (targetText "en" vSecond) = 1 := by
  rw [similarity_of_counts _ _ 5 10 (by decide) (by decide)]
  norm_num

/-- smRatio("ab", "a") is exactly 2/3: one matching character out of a
combined length of three. -/
theorem sim_ab : _similarity "ab".data "a".data = 2 / 3 := by
  rw [similarity_of_counts _ _ 1 3 (by decide) (by decide)]
  norm_num

/-- 2/3 = 0.66666... rounds up to 0.667 at three decimals. -/
theorem pyRound3_two_thirds : pyRound3 (2 / 3) = 667 / 1000 := by
  rw [pyRound3_up (2 / 3) 666 (by norm_num) (by norm_num) (by norm_num)]
  norm_num

/-- Grading the end-to-end example: score 1, passed. -/
theorem grade_example_kr :
    grade [vKorean] (17 / 20 : ℚ) "사랑은 오래참고".data "kr" (some 0)
      = .ok ⟨[⟨"V1", 1⟩], true⟩ := by
  rw [grade_single [vKorean] (17 / 20) _ "kr" 0 vKorean (by rfl), sim_kr, pyRound3_one,
    decide_eq_true (by norm_num : (17 / 20 : ℚ) ≤ 1)]
  rfl

/-- Grading with index -1 on a two-verse catalog silently grades the last
verse: Python negative indexing wraps around. -/
theorem grade_wrap :
    grade [vKorean, vSecond] (17 / 20 : ℚ) "brave".data "en" (some (-1))
      = .ok ⟨[⟨"V2", 1⟩], true⟩ := by
  rw [grade_single [vKorean, vSecond] (17 / 20) _ "en" (-1) vSecond (by rfl), sim_brave,
    pyRound3_one, decide_eq_true (by norm_num : (17 / 20 : ℚ) ≤ 1)]
  rfl

/-! ## The claims -/

/-- C1: for every submission, the verdict's `passed` flag is true exactly
when every in-scope per-verse score meets or exceeds the threshold: the
one score of the scoped verse in single-verse mode, all per-verse scores
in multi-verse mode, so one low score among many fails the verdict. -/
theorem claim_C1 (verses : List Verse) (th : ℚ) (t : List Char)
    (lang : String) (vidx : Option Int) (g : GradeResult)
    (hg : grade verses th t lang vidx = .ok g) :
    g.passed = true ↔ ∀ e ∈ g.scores, th ≤ e.score := by
  cases vidx with
  | none =>
    simp only [grade] at hg
    injection hg with hg
    subst hg
    simp [List.all_eq_true]
  | some i =>
    cases hv : pyGet verses i with
    | none =>
      simp only [grade, hv] at hg
      exact Except.noConfusion hg
    | some v =>
      simp only [grade, hv] at hg
      injection hg with hg
      subst hg
      simp

/-- Instance of C1 on the end-to-end example. -/
theorem claim_C1_witness :
    (⟨[⟨"V1", 1⟩], true⟩ : GradeResult).passed = true
      ↔ ∀ e ∈ (⟨[⟨"V1", 1⟩], true⟩ : GradeResult).scores, (17 / 20 : ℚ) ≤ e.score :=
  claim_C1 [vKorean] (17 / 20) "사랑은 오래참고".data "kr" (some 0)
    ⟨[⟨"V1", 1⟩], true⟩ grade_example_kr

/-- C2, corrected: the pass/fail comparison is made against the score
rounded to three decimals, not against the full-precision score: in
single-verse mode `passed` is true exactly when the threshold is at most
the rounded similarity. -/
theorem claim_C2 (verses : List Verse) (th : ℚ) (t : List Char)
    (lang : String) (i : Int) (v : Verse) (g : GradeResult)
    (hv : pyGet verses i = some v)
    (hg : grade verses th t lang (some i) = .ok g) :
    g.passed = true ↔ th ≤ pyRound3 (_similarity t (targetText lang v)) := by
  rw [grade_single verses th t lang i v hv] at hg
  injection hg with hg
  subst hg
  simp

/-- Instance of C2 as corrected. -/
theorem claim_C2_witness :
    (⟨[⟨"V1", 1⟩], true⟩ : GradeResult).passed = true
      ↔ (17 / 20 : ℚ) ≤ pyRound3 (_similarity "사랑은 오래참고".data (targetText "kr" vKorean)) :=
  claim_C2 [vKorean] (17 / 20) "사랑은 오래참고".data "kr" 0 vKorean
    ⟨[⟨"V1", 1⟩], true⟩ (by rfl) grade_example_kr

/-- Counterexample to C2 as stated: with the threshold configured to
0.667, the transcript "ab" against target "a" has full-precision score
2/3 = 0.666..., strictly below the threshold, yet its three-decimal
rounding is 0.667 and the submission passes. -/
theorem claim_C2_counterexample :
    _similarity "ab".data "a".data < 667 / 1000 ∧
    grade [⟨"V1", "a".data, "a".data⟩] (667 / 1000) "ab".data "kr" (some 0)
      = .ok ⟨[⟨"V1", 667 / 1000⟩], true⟩ := by
  constructor
  · rw [sim_ab]; norm_num
  · rw [grade_single [⟨"V1", "a".data, "a".data⟩] (667 / 1000) _ "kr" 0
      ⟨"V1", "a".data, "a".data⟩ (by rfl)]
    rw [show targetText "kr" (⟨"V1", "a".data, "a".data⟩ : Verse) = "a".data from rfl]
    rw [sim_ab, pyRound3_two_thirds, decide_eq_true (by norm_num : (667 / 1000 : ℚ) ≤ 667 / 1000)]

/-- C3, corrected: a scope index at or beyond the catalog length (or
below minus the length) raises an uncaught IndexError, so there is no
verdict and no ledger entry; but a negative index within range wraps
around Python-style instead of failing (see the counterexample). -/
theorem claim_C3 (verses : List Verse) (th : ℚ) (t : List Char)
    (upl : Except Unit String) (nm lang wk : String) (i : Int)
    (h : i < -(verses.length : Int) ∨ (verses.length : Int) ≤ i) :
    (submit verses th (.ok t) upl nm lang (some i) wk).result = .indexError ∧
    (submit verses th (.ok t) upl nm lang (some i) wk).ledger = [] := by
  have hp : pyGet verses i = none := pyGet_eq_none verses i h
  simp [submit, grade, hp]

/-- Instance of C3 as corrected, at index 5 of a one-verse catalog. -/
theorem claim_C3_witness :
    ((5 : Int) < -(([vKorean] : List Verse).length : Int) ∨ (([vKorean] : List Verse).length : Int) ≤ 5) ∧
    ((submit [vKorean] (17 / 20) (.ok "x".data) (.ok "L") "kim" "kr" (some 5) "w1").result = .indexError ∧
     (submit [vKorean] (17 / 20) (.ok "x".data) (.ok "L") "kim" "kr" (some 5) "w1").ledger = []) :=
  ⟨by norm_num, claim_C3 [vKorean] (17 / 20) "x".data (.ok "L") "kim" "kr" "w1" 5 (by norm_num)⟩

/-- Counterexample to C3 as stated: index -1 on a two-verse catalog does
not fail at all; it silently wraps to the last verse, a verdict is
produced and a ledger entry is written. -/
theorem claim_C3_counterexample :
    (submit [vKorean, vSecond] (17 / 20) (.ok "brave".data) (.ok "L") "kim" "en" (some (-1)) "w1").result
      = .ok ⟨"kim", "en", [⟨"V2", 1⟩], true, "brave".data, "L", some (-1), "w1"⟩ ∧
    (submit [vKorean, vSecond] (17 / 20) (.ok "brave".data) (.ok "L") "kim" "en" (some (-1)) "w1").ledger
      = [⟨"w1", "kim", "en", some (-1), "brave".data, [⟨"V2", 1⟩], true, "L"⟩] := by
  rw [submit_ok [vKorean, vSecond] (17 / 20) "brave".data (.ok "L") "kim" "en"
    (some (-1)) "w1" ⟨[⟨"V2", 1⟩], true⟩ grade_wrap]
  exact ⟨rfl, rfl⟩

/-- C4, corrected: there is no language validation at all: every language
code other than "kr" (known or unknown) is graded against the English
text, exactly as if "en" had been sent, with no error raised. -/
theorem claim_C4 (verses : List Verse) (th : ℚ) (t : List Char)
    (vidx : Option Int) (lang : String) (h : lang ≠ "kr") :
    grade verses th t lang vidx = grade verses th t "en" vidx := by
  have he : (lang == "kr") = false := beq_eq_false_iff_ne.mpr h
  have hen : (("en" : String) == "kr") = false := by rfl
  cases vidx with
  | none => simp [grade, targetText, he, hen]
  | some i => cases hp : pyGet verses i <;> simp [grade, hp, targetText, he, hen]

/-- Instance of C4 as corrected, for the unknown code "fr". -/
theorem claim_C4_witness :
    ("fr" : String) ≠ "kr" ∧
    grade [vKorean] (17 / 20) "x".data "fr" (some 0)
      = grade [vKorean] (17 / 20) "x".data "en" (some 0) :=
  ⟨by decide, claim_C4 [vKorean] (17 / 20) "x".data (some 0) "fr" (by decide)⟩

/-- Counterexample to C4 as stated: a submission in the unsupported
language "fr" is not rejected; it is scored against the English text and
even passes, since the transcript matches that text. -/
theorem claim_C4_counterexample :
    grade [vKorean] (17 / 20) "loveispatient".data "fr" (some 0)
      = .ok ⟨[⟨"V1", 1⟩], true⟩ := by
  rw [grade_single [vKorean] (17 / 20) _ "fr" 0 vKorean (by rfl), sim_fr, pyRound3_one,
    decide_eq_true (by norm_num : (17 / 20 : ℚ) ≤ 1)]
  rfl

/-- C5, corrected: the only input rejection the code performs (the
out-of-range scope index) happens after the local audio file is saved and
after the transcription call; only the ledger append is skipped. -/
theorem claim_C5 (verses : List Verse) (th : ℚ) (t : List Char)
    (upl : Except Unit String) (nm lang wk : String) (i : Int)
    (h : i < -(verses.length : Int) ∨ (verses.length : Int) ≤ i) :
    Ev.saveFile ∈ (submit verses th (.ok t) upl nm lang (some i) wk).events ∧
    Ev.sttCall ∈ (submit verses th (.ok t) upl nm lang (some i) wk).events ∧
    (submit verses th (.ok t) upl nm lang (some i) wk).ledger = [] := by
  have hp : pyGet verses i = none := pyGet_eq_none verses i h
  simp [submit, grade, hp]

/-- Instance of C5 as corrected, at index 7 of a two-verse catalog. -/
theorem claim_C5_witness :
    ((7 : Int) < -(([vKorean, vSecond] : List Verse).length : Int) ∨ (([vKorean, vSecond] : List Verse).length : Int) ≤ 7) ∧
    (Ev.saveFile ∈ (submit [vKorean, vSecond] (17 / 20) (.ok "y".data) (.error ()) "lee" "en" (some 7) "w2").events ∧
     Ev.sttCall ∈ (submit [vKorean, vSecond] (17 / 20) (.ok "y".data) (.error ()) "lee" "en" (some 7) "w2").events ∧
     (submit [vKorean, vSecond] (17 / 20) (.ok "y".data) (.error ()) "lee" "en" (some 7) "w2").ledger = []) :=
  ⟨by norm_num, claim_C5 [vKorean, vSecond] (17 / 20) "y".data (.error ()) "lee" "en" "w2" 7 (by norm_num)⟩

/-- Counterexample to C5 as stated: a submission rejected for an
out-of-range index has already saved the local audio file and already
called the transcription service; the rejection is not side-effect
free. -/
theorem claim_C5_counterexample :
    (submit [vKorean] (17 / 20) (.ok "x".data) (.ok "L") "kim" "kr" (some 5) "w1").result
      = .indexError ∧
    Ev.saveFile ∈ (submit [vKorean] (17 / 20) (.ok "x".data) (.ok "L") "kim" "kr" (some 5) "w1").events ∧
    Ev.sttCall ∈ (submit [vKorean] (17 / 20) (.ok "x".data) (.ok "L") "kim" "kr" (some 5) "w1").events := by
  refine ⟨?_, ?_, ?_⟩ <;> decide

/-- The lookup-or-create step when the folder is already present. -/
theorem ensure_of_found (st : DriveState) (parent : Nat) (nm : String) (fid : Nat)
    (hf : find_folder st parent nm = some fid) :
    _ensure_child_folder st parent nm = (fid, st) := by
  unfold _ensure_child_folder
  rw [hf]

/-- The lookup-or-create step when the folder is absent. -/
theorem ensure_of_missing (st : DriveState) (parent : Nat) (nm : String)
    (hf : find_folder st parent nm = none) :
    _ensure_child_folder st parent nm
      = (st.nextId,
         ⟨st.folders ++ [⟨st.nextId, nm, parent, false⟩], st.nextId + 1,
          st.createCalls + 1⟩) := by
  unfold _ensure_child_folder create_folder
  rw [hf]

/-- A failed lookup means no live folder with that name and parent. -/
theorem filter_nil_of_find_none (st : DriveState) (parent : Nat) (nm : String)
    (hf : find_folder st parent nm = none) :
    st.folders.filter (fun f => f.name == nm && f.parent == parent && !f.trashed) = [] := by
  unfold find_folder at hf
  rw [Option.map_eq_none'] at hf
  exact List.head?_eq_none_iff.mp hf

/-- After the creation, the lookup finds exactly the created folder. -/
theorem find_after_create (st : DriveState) (parent : Nat) (nm : String)
    (n2 c2 : Nat) (hf : find_folder st parent nm = none) :
    find_folder ⟨st.folders ++ [⟨st.nextId, nm, parent, false⟩], n2, c2⟩ parent nm
      = some st.nextId := by
  unfold find_folder
  simp only [List.filter_append, filter_nil_of_find_none st parent nm hf]
  simp [List.filter_cons]

/-- C6, confirmed: resolving the same (parent, name) pair twice in
sequence returns the same folder identifier, leaves the store of the
first resolution unchanged, issues at most one creation call in total,
and preserves the invariant that at most one live folder with that pair
exists in the store. -/
theorem claim_C6 (st : DriveState) (parent : Nat) (nm : String)
    (hc : pairCount st parent nm ≤ 1) :
    (_ensure_child_folder st parent nm).1
        = (_ensure_child_folder (_ensure_child_folder st parent nm).2 parent nm).1 ∧
    (_ensure_child_folder (_ensure_child_folder st parent nm).2 parent nm).2
        = (_ensure_child_folder st parent nm).2 ∧
    (_ensure_child_folder (_ensure_child_folder st parent nm).2 parent nm).2.createCalls
        ≤ st.createCalls + 1 ∧
    pairCount (_ensure_child_folder (_ensure_child_folder st parent nm).2 parent nm).2 parent nm ≤ 1 := by
  cases hf : find_folder st parent nm with
  | some fid =>
    rw [ensure_of_found st parent nm fid hf]
    rw [ensure_of_found st parent nm fid hf]
    exact ⟨rfl, rfl, Nat.le_succ _, hc⟩
  | none =>
    rw [ensure_of_missing st parent nm hf]
    have hfind := find_after_create st parent nm (st.nextId + 1) (st.createCalls + 1) hf
    rw [ensure_of_found _ parent nm st.nextId hfind]
    refine ⟨rfl, rfl, Nat.le_refl _, ?_⟩
    unfold pairCount
    simp only [List.filter_append, filter_nil_of_find_none st parent nm hf]
    simp [List.filter_cons]

/-- Instance of C6 starting from an empty store. -/
theorem claim_C6_witness :
    pairCount ⟨[], 1, 0⟩ 0 "audio" ≤ 1 ∧
    ((_ensure_child_folder ⟨[], 1, 0⟩ 0 "audio").1
        = (_ensure_child_folder (_ensure_child_folder ⟨[], 1, 0⟩ 0 "audio").2 0 "audio").1 ∧
     (_ensure_child_folder (_ensure_child_folder ⟨[], 1, 0⟩ 0 "audio").2 0 "audio").2
        = (_ensure_child_folder ⟨[], 1, 0⟩ 0 "audio").2 ∧
     (_ensure_child_folder (_ensure_child_folder ⟨[], 1, 0⟩ 0 "audio").2 0 "audio").2.createCalls
        ≤ (⟨[], 1, 0⟩ : DriveState).createCalls + 1 ∧
     pairCount (_ensure_child_folder (_ensure_child_folder ⟨[], 1, 0⟩ 0 "audio").2 0 "audio").2 0 "audio" ≤ 1) :=
  ⟨by decide, claim_C6 ⟨[], 1, 0⟩ 0 "audio" (by decide)⟩

/-- C7, confirmed: when the archival upload fails, the submission still
returns the successful verdict with the computed scores and pass flag,
the archive link in the response and in the ledger row is empty, and the
local save and the ledger append still happen. -/
theorem claim_C7 (verses : List Verse) (th : ℚ) (t : List Char)
    (nm lang : String) (vidx : Option Int) (wk : String) (g : GradeResult)
    (hg : grade verses th t lang vidx = .ok g) :
    (submit verses th (.ok t) (.error ()) nm lang vidx wk).result
        = .ok ⟨nm, lang, g.scores, g.passed, t, "", vidx, wk⟩ ∧
    (submit verses th (.ok t) (.error ()) nm lang vidx wk).ledger
        = [⟨wk, nm, lang, vidx, t, g.scores, g.passed, ""⟩] ∧
    Ev.saveFile ∈ (submit verses th (.ok t) (.error ()) nm lang vidx wk).events ∧
    Ev.ledgerAppend ∈ (submit verses th (.ok t) (.error ()) nm lang vidx wk).events := by
  rw [submit_ok verses th t (.error ()) nm lang vidx wk g hg]
  refine ⟨rfl, rfl, ?_, ?_⟩ <;> simp

/-- Instance of C7 on the end-to-end example with a failing upload. -/
theorem claim_C7_witness :
    (submit [vKorean] (17 / 20) (.ok "사랑은 오래참고".data) (.error ()) "kim" "kr" (some 0) "w1").result
        = .ok ⟨"kim", "kr", [⟨"V1", 1⟩], true, "사랑은 오래참고".data, "", some 0, "w1"⟩ ∧
    (submit [vKorean] (17 / 20) (.ok "사랑은 오래참고".data) (.error ()) "kim" "kr" (some 0) "w1").ledger
        = [⟨"w1", "kim", "kr", some 0, "사랑은 오래참고".data, [⟨"V1", 1⟩], true, ""⟩] ∧
    Ev.saveFile ∈ (submit [vKorean] (17 / 20) (.ok "사랑은 오래참고".data) (.error ()) "kim" "kr" (some 0) "w1").events ∧
    Ev.ledgerAppend ∈ (submit [vKorean] (17 / 20) (.ok "사랑은 오래참고".data) (.error ()) "kim" "kr" (some 0) "w1").events :=
  claim_C7 [vKorean] (17 / 20) "사랑은 오래참고".data "kim" "kr" (some 0) "w1"
    ⟨[⟨"V1", 1⟩], true⟩ grade_example_kr

/-- C8, corrected: only dict payloads load.  A dict containing the key
"verses" yields the value stored under it; a dict without that key, a
single verse object included, is used as the catalog itself, unchanged,
with no normalisation into a sequence and no error; and every payload
that is not a dict, the flat-list shape included, crashes startup with
the AttributeError of the line-36 week_id lookup rather than being
normalised or shape-checked. -/
theorem claim_C8 (fields fields2 : List (String × Json))
    (hk : hasKey fields "verses" = true) (hk2 : hasKey fields2 "verses" = false)
    (raw : Json) (hr : ∀ fs, raw ≠ Json.obj fs) :
    loadVerses (.obj fields) = .ok (getKey fields "verses") ∧
    loadVerses (.obj fields2) = .ok (.obj fields2) ∧
    loadVerses raw = .error .attributeError := by
  refine ⟨?_, ?_, ?_⟩
  · simp only [loadVerses]
    rw [if_pos hk]
  · simp only [loadVerses]
    rw [if_neg (by simp [hk2])]
  · cases raw with
    | obj fs => exact absurd rfl (hr fs)
    | null => rfl
    | str s => rfl
    | num n => rfl
    | arr l => rfl

/-- Instance of C8 as corrected: a wrapper dict is unwrapped, a dict
without the "verses" key loads as itself, and the flat-list payload
crashes at startup. -/
theorem claim_C8_witness :
    hasKey [("verses", Json.arr [])] "verses" = true ∧
    hasKey [("kr", Json.str "가")] "verses" = false ∧
    (loadVerses (.obj [("verses", Json.arr [])]) = .ok (getKey [("verses", Json.arr [])] "verses") ∧
     loadVerses (.obj [("kr", Json.str "가")]) = .ok (.obj [("kr", Json.str "가")]) ∧
     loadVerses (.arr []) = .error .attributeError) :=
  ⟨rfl, rfl,
   claim_C8 [("verses", Json.arr [])] [("kr", Json.str "가")] rfl rfl (.arr [])
     (fun _ h => Json.noConfusion h)⟩

/-- Counterexample to C8 as stated: a payload consisting of a single
verse object is neither normalised into a one-element sequence nor
rejected (it loads unchanged and is not a sequence), while the flat-list
shape the claim says is accepted crashes at startup with an
AttributeError before the catalog line runs. -/
theorem claim_C8_counterexample :
    loadVerses singleVerseObj = .ok singleVerseObj ∧
    isArr singleVerseObj = false ∧
    loadVerses (.arr [singleVerseObj]) = .error .attributeError :=
  ⟨rfl, rfl, rfl⟩

/-- C9, corrected: every character of the implemented class (punctuation,
straight and curly double quotes, hyphen and em-dash, brackets, middle
dot, ellipsis, whitespace) is removed by normalisation wherever it
occurs, leaving the similarity score unchanged; but the curly single
quotes are not in the class (see the counterexample), so only pairs
differing in the listed characters are scored identically. -/
theorem claim_C9 (u v w : List Char) (c : Char) (h : isStripped c = true) :
    _normalize (u ++ c :: v) = _normalize (u ++ v) ∧
    _similarity (u ++ c :: v) w = _similarity (u ++ v) w := by
  have hn := normalize_insert_stripped u v c h
  exact ⟨hn, by unfold _similarity; rw [hn]⟩

/-- Instance of C9 as corrected, inserting a curly double quote. -/
theorem claim_C9_witness :
    isStripped (Char.ofNat 0x201C) = true ∧
    (_normalize ("a".data ++ Char.ofNat 0x201C :: "b".data) = _normalize ("a".data ++ "b".data) ∧
     _similarity ("a".data ++ Char.ofNat 0x201C :: "b".data) "ab".data
        = _similarity ("a".data ++ "b".data) "ab".data) :=
  ⟨by decide, claim_C9 "a".data "b".data "ab".data (Char.ofNat 0x201C) (by decide)⟩

/-- Counterexample to C9 as stated: the curly single quote U+2019 is not
stripped, so a transcript with a straight apostrophe and a target with
the curly variant normalise differently and score below 1. -/
theorem claim_C9_counterexample :
    _normalize ("it".data ++ curlyApostrophe :: "s".data)
        ≠ _normalize ("it".data ++ Char.ofNat 0x27 :: "s".data) ∧
    _similarity ("it".data ++ curlyApostrophe :: "s".data)
        ("it".data ++ Char.ofNat 0x27 :: "s".data) ≠ 1 := by
  constructor
  · decide
  · rw [similarity_of_counts _ _ 3 7 (by decide) (by decide)]
    norm_num

/-- C10, confirmed: when both the transcript and the target normalise to
the empty string, the similarity is exactly 1, so for any threshold at
most 1 the submission is judged a pass even though no characters
match. -/
theorem claim_C10 (a b : List Char) (th : ℚ) (vid : String)
    (ha : _normalize a = []) (hb : _normalize b = []) (hth : th ≤ 1) :
    _similarity a b = 1 ∧
    grade [⟨vid, b, b⟩] th a "kr" (some 0) = .ok ⟨[⟨vid, 1⟩], true⟩ := by
  have hs : _similarity a b = 1 := by
    unfold _similarity
    rw [ha, hb]
    rfl
  refine ⟨hs, ?_⟩
  rw [grade_single [⟨vid, b, b⟩] th a "kr" 0 ⟨vid, b, b⟩ (by rfl)]
  rw [show targetText "kr" (⟨vid, b, b⟩ : Verse) = b from rfl]
  rw [hs, pyRound3_one, decide_eq_true hth]

/-- Instance of C10 on punctuation-only strings. -/
theorem claim_C10_witness :
    _normalize "...".data = [] ∧ _normalize "?!".data = [] ∧ (17 / 20 : ℚ) ≤ 1 ∧
    (_similarity "...".data "?!".data = 1 ∧
     grade [⟨"V1", "?!".data, "?!".data⟩] (17 / 20) "...".data "kr" (some 0)
        = .ok ⟨[⟨"V1", 1⟩], true⟩) :=
  ⟨by decide, by decide, by norm_num,
   claim_C10 "...".data "?!".data (17 / 20) "V1" (by decide) (by decide) (by norm_num)⟩

end MemoryCheck
